import Mathlib

/-!
Verification development for the importance-scoring and publication pipeline
of the `important_message` Telegram bot.

The Python sources are shallowly embedded as follows:
* floats are modelled as exact rationals (`ℚ`); all score arithmetic in the
  source stays inside `[0,1]`-bounded blending rules whose intended semantics
  is exact decimal arithmetic;
* `datetime` values are epoch seconds (`Int`); `datetime.now()` becomes an
  explicit `now` parameter;
* network calls are oracles: a list of responses consumed in order, `none`
  standing for a transport exception (`requests.exceptions.RequestException`);
* Python exceptions become `Except Unit` results / explicit fallback branches;
* the module-level mutable `Storage` dictionaries become an explicit `Storage`
  value threaded through the admin-service operations, and outward side
  effects (channel sends, user/admin notifications) are collected in an
  `Effect` trace.
-/

/-- The clamp `max(0.0, min(1.0, x))` used at the end of
`apply_importance_criteria` and on the model-returned base score. -/
def clampScore (q : ℚ) : ℚ := max 0 (min 1 q)

/-- Lower-casing as used by the source (`str.lower()`), modelled per
character.  `Char.toLower` only folds ASCII letters; all concrete inputs used
below are ASCII, so this is faithful on everything exercised. -/
def strLower (s : String) : String := ⟨s.data.map Char.toLower⟩

/-- Does `hay` start with `needle`? (helper for the substring test). -/
def charsStartWith : List Char → List Char → Bool
  | [], _ => true
  | _ :: _, [] => false
  | n :: ns, h :: hs => n == h && charsStartWith ns hs

/-- Substring occurrence test on character lists (Python's `needle in hay`). -/
def charsContain (needle hay : List Char) : Bool :=
  if charsStartWith needle hay then true
  else
    match hay with
    | [] => false
    | _ :: hs => charsContain needle hs

/-- Python's `needle in hay` on strings. -/
def strContains (hay needle : String) : Bool := charsContain needle.data hay.data

/-- Values produced by Python's `json.loads`. -/
inductive JsonValue where
  | null
  | bool (b : Bool)
  | num (q : ℚ)
  | str (s : String)
  | arr (elems : List JsonValue)
  | obj (fields : List (String × JsonValue))

/-- JSON insignificant whitespace. -/
def isJsonWs (c : Char) : Bool := c == ' ' || c == '\t' || c == '\n' || c == '\r'

/-- Skip leading JSON whitespace. -/
def skipWs : List Char → List Char
  | [] => []
  | c :: cs => if isJsonWs c then skipWs cs else c :: cs

/-- Digit string to a natural number. -/
def digitsToNat (ds : List Char) : Nat :=
  ds.foldl (fun a c => a * 10 + (c.toNat - 48)) 0

/-- Map a single-character JSON escape to its character. -/
def jsonEscChar : Char → Option Char
  | '"' => some '"'
  | '\\' => some '\\'
  | '/' => some '/'
  | 'b' => some (Char.ofNat 8)
  | 'f' => some (Char.ofNat 12)
  | 'n' => some '\n'
  | 'r' => some '\r'
  | 't' => some '\t'
  | _ => none

/-- Hex digit value. -/
def hexVal (c : Char) : Option Nat :=
  if c.isDigit then some (c.toNat - 48)
  else if 'a' ≤ c ∧ c ≤ 'f' then some (c.toNat - 87)
  else if 'A' ≤ c ∧ c ≤ 'F' then some (c.toNat - 55)
  else none

/-- Parse the body of a JSON string literal (the opening quote already
consumed); strict as `json.loads`: raw control characters are rejected. -/
def parseJStringAux : List Char → List Char → Option (String × List Char)
  | acc, '"' :: rest => some (⟨acc.reverse⟩, rest)
  | acc, '\\' :: 'u' :: h1 :: h2 :: h3 :: h4 :: rest =>
    match hexVal h1, hexVal h2, hexVal h3, hexVal h4 with
    | some a, some b, some c, some d =>
      parseJStringAux (Char.ofNat (((a * 16 + b) * 16 + c) * 16 + d) :: acc) rest
    | _, _, _, _ => none
  | acc, '\\' :: e :: rest =>
    match jsonEscChar e with
    | some c => parseJStringAux (c :: acc) rest
    | none => none
  | acc, c :: rest =>
    if c.toNat < 32 then none else parseJStringAux (c :: acc) rest
  | _, [] => none

/-- JSON integer part: `0` or a nonzero digit followed by digits. -/
def parseIntPart : List Char → Option (List Char × List Char)
  | '0' :: rest =>
    match rest with
    | c :: _ => if c.isDigit then none else some (['0'], rest)
    | [] => some (['0'], [])
  | cs =>
    let p := cs.span (fun c => c.isDigit)
    if p.1.isEmpty then none else some (p.1, p.2)

/-- JSON fractional part (possibly absent). -/
def parseFracPart : List Char → Option (List Char × List Char)
  | '.' :: r =>
    let p := r.span (fun c => c.isDigit)
    if p.1.isEmpty then none else some (p.1, p.2)
  | cs => some ([], cs)

/-- JSON exponent part (possibly absent), as a signed integer. -/
def parseExpPart : List Char → Option (Int × List Char)
  | c :: r =>
    if c == 'e' || c == 'E' then
      let sr : Int × List Char :=
        match r with
        | '+' :: rr => (1, rr)
        | '-' :: rr => (-1, rr)
        | _ => (1, r)
      let p := sr.2.span (fun ch => ch.isDigit)
      if p.1.isEmpty then none else some (sr.1 * (digitsToNat p.1 : Int), p.2)
    else some (0, c :: r)
  | [] => some (0, [])

/-- Assemble a rational from integer digits, fraction digits and exponent. -/
def assembleNum (neg : Bool) (ids fds : List Char) (e : Int) : ℚ :=
  let mant : ℚ := (digitsToNat ids : ℚ) + (digitsToNat fds : ℚ) / ((10 : ℚ) ^ fds.length)
  let powed : ℚ := if 0 ≤ e then mant * (10 : ℚ) ^ e.toNat else mant / (10 : ℚ) ^ (-e).toNat
  if neg then -powed else powed

/-- Parse a JSON number. -/
def parseNumber (cs : List Char) : Option (ℚ × List Char) :=
  let sgn : Bool × List Char :=
    match cs with
    | '-' :: r => (true, r)
    | _ => (false, cs)
  match parseIntPart sgn.2 with
  | none => none
  | some (ids, cs2) =>
    match parseFracPart cs2 with
    | none => none
    | some (fds, cs3) =>
      match parseExpPart cs3 with
      | none => none
      | some (e, cs4) => some (assembleNum sgn.1 ids fds e, cs4)

mutual

/-- Fuel-indexed recursive-descent parser for a strict JSON value,
mirroring `json.loads` (without the `NaN`/`Infinity` extensions, which the
source never exercises). -/
def parseJValue : Nat → List Char → Option (JsonValue × List Char)
  | 0, _ => none
  | fuel + 1, cs =>
    match skipWs cs with
    | [] => none
    | '{' :: rest =>
      match skipWs rest with
      | '}' :: r => some (.obj [], r)
      | cs' => parseJObjRest fuel cs' []
    | '[' :: rest =>
      match skipWs rest with
      | ']' :: r => some (.arr [], r)
      | cs' => parseJArrRest fuel cs' []
    | '"' :: rest =>
      match parseJStringAux [] rest with
      | some (s, r) => some (.str s, r)
      | none => none
    | 't' :: 'r' :: 'u' :: 'e' :: rest => some (.bool true, rest)
    | 'f' :: 'a' :: 'l' :: 's' :: 'e' :: rest => some (.bool false, rest)
    | 'n' :: 'u' :: 'l' :: 'l' :: rest => some (.null, rest)
    | cs' =>
      match parseNumber cs' with
      | some (q, r) => some (.num q, r)
      | none => none

/-- Parse the members of a JSON object, positioned at the start of a
`"key": value` pair. -/
def parseJObjRest : Nat → List Char → List (String × JsonValue) →
    Option (JsonValue × List Char)
  | 0, _, _ => none
  | fuel + 1, cs, acc =>
    match cs with
    | '"' :: rest =>
      match parseJStringAux [] rest with
      | none => none
      | some (key, r1) =>
        match skipWs r1 with
        | ':' :: r2 =>
          match parseJValue fuel r2 with
          | none => none
          | some (v, r3) =>
            match skipWs r3 with
            | ',' :: r4 => parseJObjRest fuel (skipWs r4) (acc ++ [(key, v)])
            | '}' :: r4 => some (.obj (acc ++ [(key, v)]), r4)
            | _ => none
        | _ => none
    | _ => none

/-- Parse the elements of a JSON array, positioned at the start of a value. -/
def parseJArrRest : Nat → List Char → List JsonValue → Option (JsonValue × List Char)
  | 0, _, _ => none
  | fuel + 1, cs, acc =>
    match parseJValue fuel cs with
    | none => none
    | some (v, r1) =>
      match skipWs r1 with
      | ',' :: r2 => parseJArrRest fuel r2 (acc ++ [v])
      | ']' :: r2 => some (.arr (acc ++ [v]), r2)
      | _ => none

end

/-- Python's `json.loads`: the whole text (modulo surrounding whitespace)
must be a single JSON value. -/
def json_loads (s : String) : Option JsonValue :=
  let cs := s.data
  match parseJValue (cs.length + 1) cs with
  | some (v, rest) => if (skipWs rest).isEmpty then some v else none
  | none => none

/-- First index of `c` in `cs` (Python `str.find`, `none` for `-1`). -/
def strFindIdx (c : Char) (cs : List Char) : Option Nat := cs.findIdx? (· == c)

/-- Last index of `c` in `cs` (Python `str.rfind`, `none` for `-1`). -/
def strRFindIdx (c : Char) (cs : List Char) : Option Nat :=
  match cs.reverse.findIdx? (· == c) with
  | some k => some (cs.length - 1 - k)
  | none => none

/-- Embedding of `utils.safe_json_parse`: try `json.loads` on the whole text; on failure
slice from the first `\x7b` to the last `\x7d` and try again; `None` when
either step fails. -/
def safe_json_parse (text : String) : Option JsonValue :=
  match json_loads text with
  | some v => some v
  | none =>
    let cs := text.data
    match strFindIdx '{' cs, strRFindIdx '}' cs with
    | some s, some e =>
      if s < e + 1 then json_loads ⟨(cs.drop s).take (e + 1 - s)⟩ else none
    | _, _ => none

/-- Embedding of `models.Message` (only the fields the pipeline reads; timestamps are
epoch seconds). -/
structure Message where
  message_id : Int
  chat_id : Int
  chat_title : String
  sender_id : Option Int := none
  sender_name : Option String := none
  text : String
  date : Int
  importance_score : Option ℚ := none
  is_channel : Bool := false

/-- Embedding of `models.ImportanceCriteria` with its source defaults. -/
structure ImportanceCriteria where
  keywords_boost : List String := []
  keywords_reduce : List String := []
  sources_boost : List Int := []
  sources_reduce : List Int := []
  min_message_length : Int := 10
  max_message_length : Int := 4000
  exclude_forwarded : Bool := false
  time_sensitivity : Bool := true

/-- Embedding of `models.UserPreferences` (fields read by the pipeline). -/
structure UserPreferences where
  user_id : Int
  monitored_chats : List Int := []
  monitored_channels : List Int := []
  keywords : List String := []
  exclude_keywords : List String := []
  can_submit_posts : Bool := true

/-- Embedding of `models.PostStatus`. -/
inductive PostStatus where
  | pending
  | approved
  | rejected
  | published
deriving DecidableEq

/-- Embedding of `models.PendingPost` (timestamps are epoch seconds). -/
structure PendingPost where
  post_id : String
  user_id : Int
  message_text : String
  source_info : Option String := none
  importance_score : Option ℚ := none
  status : PostStatus := .pending
  submitted_at : Int := 0
  reviewed_at : Option Int := none
  reviewed_by : Option Int := none
  admin_comment : Option String := none

/-- Embedding of `models.BotConfig` (fields read by the pipeline, with source defaults). -/
structure BotConfig where
  admin_ids : List Int := []
  publish_channel_id : Option Int := none
  importance_threshold : ℚ := 7/10
  importance_criteria : ImportanceCriteria := {}
  auto_publish_enabled : Bool := true
  require_admin_approval : Bool := true

/-- The in-memory state of `models.Storage` (the JSON files only mirror it). -/
structure Storage where
  users : List (Int × UserPreferences) := []
  bot_config : BotConfig := {}
  pending_posts : List (String × PendingPost) := []

/-- Embedding of `ai_service.apply_importance_criteria`.  The source reads the criteria
from the global `Storage.bot_config` and the current time from
`datetime.now()`; both are explicit parameters (`criteria`, `now`) here.
Each Python branch is one `let` step, in source order, with the additive
steps clamped exactly where the source clamps them. -/
def apply_importance_criteria (base_score : ℚ) (message : Message)
    (criteria : ImportanceCriteria) (user_preferences : UserPreferences)
    (now : Int) : ℚ :=
  let msg_length : Int := message.text.length
  let s1 :=
    if msg_length < criteria.min_message_length then base_score * (1/2)
    else if msg_length > criteria.max_message_length then base_score * (4/5)
    else base_score
  let message_lower := strLower message.text
  let s2 :=
    if criteria.keywords_boost.any (fun k => strContains message_lower (strLower k)) then
      min 1 (s1 + 1/5)
    else s1
  let s3 :=
    if criteria.keywords_reduce.any (fun k => strContains message_lower (strLower k)) then
      max 0 (s2 - 3/10)
    else s2
  let s4 :=
    if user_preferences.keywords.any (fun k => strContains message_lower (strLower k)) then
      min 1 (s3 + 1/4)
    else s3
  let s5 :=
    if user_preferences.exclude_keywords.any (fun k => strContains message_lower (strLower k)) then
      max 0 (s4 - 2/5)
    else s4
  let s6 :=
    if criteria.sources_boost.contains message.chat_id then min 1 (s5 + 3/20)
    else if criteria.sources_reduce.contains message.chat_id then max 0 (s5 - 1/4)
    else s5
  let s7 :=
    if criteria.time_sensitivity then
      let hours_old : ℚ := ((now - message.date : Int) : ℚ) / 3600
      if hours_old < 1 then min 1 (s6 + 1/10)
      else if hours_old > 24 then max 0 (s6 - 1/10)
      else s6
    else s6
  clampScore s7

/-- Whitespace stripped by Python's `float(str)` before parsing. -/
def stripPyWs (cs : List Char) : List Char :=
  ((cs.dropWhile isJsonWs).reverse.dropWhile isJsonWs).reverse

/-- Python's `float()` applied to a string: optional sign, decimal digits
with an optional point and exponent (`inf`/`nan`/underscore forms are not
modelled; nothing below exercises them). -/
def pyFloatStr (s : String) : Option ℚ :=
  let cs := stripPyWs s.data
  let sgn : Bool × List Char :=
    match cs with
    | '-' :: r => (true, r)
    | '+' :: r => (false, r)
    | _ => (false, cs)
  let ip := sgn.2.span (fun c => c.isDigit)
  let fp : List Char × List Char :=
    match ip.2 with
    | '.' :: r => r.span (fun c => c.isDigit)
    | _ => ([], ip.2)
  if ip.1.isEmpty ∧ fp.1.isEmpty then none
  else
    match parseExpPart fp.2 with
    | none => none
    | some (e, rest) =>
      if rest.isEmpty then some (assembleNum sgn.1 ip.1 fp.1 e) else none

/-- Python's `float()` applied to a `json.loads` value: numbers are kept,
booleans coerce (`float(True) = 1.0`), strings are parsed, and
`None`/lists/dicts raise (`none` here). -/
def pyFloat : JsonValue → Option ℚ
  | .num q => some q
  | .bool b => some (if b then 1 else 0)
  | .str s => pyFloatStr s
  | _ => none

/-- Python `dict.get` on a parsed JSON object (`json.loads` keeps the last
occurrence of a duplicated key, hence the left fold). -/
def objGet (fields : List (String × JsonValue)) (k : String) : Option JsonValue :=
  fields.foldl (fun acc p => if p.1 = k then some p.2 else acc) none

/-- The module-level `token_cache` dict of `ai_service`. -/
structure TokenCache where
  token : Option String := none
  expires_at : Option Int := none
deriving DecidableEq

/-- One response of the OAuth endpoint: the fields `get_access_token` reads
(`access_token`) plus the server-declared lifetime `expires_in`, which the
source never reads. -/
structure AuthResponse where
  access_token : Option String := none
  expires_in : Int := 1800

/-- Pop the next oracle entry; an exhausted oracle behaves like a transport
error. -/
def popOracle {α : Type} : List (Option α) → Option α × List (Option α)
  | [] => (none, [])
  | r :: rest => (r, rest)

/-- The retry loop of `ai_service.get_access_token` (`max_retries = 3`);
`fuel` is the number of attempts left, the `Nat` result counts exchanges
performed.  A response whose `access_token` is missing or empty (Python
`if not token`) is retried like a failure; on the last attempt both failure
modes raise `RuntimeError`. -/
def get_access_token_go : Nat → Int → List (Option AuthResponse) → Nat →
    Except Unit String × TokenCache × Nat
  | 0, _, _, cnt => (.error (), {}, cnt)
  | fuel + 1, now, oracle, cnt =>
    let pr := popOracle oracle
    let cnt' := cnt + 1
    match pr.1 with
    | none =>
      if 1 ≤ fuel then get_access_token_go fuel now pr.2 cnt'
      else (.error (), {}, cnt')
    | some res =>
      match res.access_token with
      | some tok =>
        if tok = "" then
          if 1 ≤ fuel then get_access_token_go fuel now pr.2 cnt'
          else (.error (), {}, cnt')
        else
          (.ok tok, { token := some tok, expires_at := some (now + 1800) }, cnt')
      | none =>
        if 1 ≤ fuel then get_access_token_go fuel now pr.2 cnt'
        else (.error (), {}, cnt')

/-- Embedding of `ai_service.get_access_token`.  Returns the cached token when present
(non-empty: Python truthiness), unexpired and `force_refresh` is false;
otherwise runs the exchange loop.  On success the stored expiry is
`now + timedelta(minutes=30)` = `now + 1800` seconds, written by the source
independently of the response's `expires_in`.  The `Nat` in the result is
the number of exchange requests performed. -/
def get_access_token (force_refresh : Bool) (now : Int)
    (oracle : List (Option AuthResponse)) (cache : TokenCache) :
    Except Unit String × TokenCache × Nat :=
  let cached : Option String :=
    if force_refresh then none
    else
      match cache.token, cache.expires_at with
      | some t, some e => if t ≠ "" ∧ now < e then some t else none
      | _, _ => none
  match cached with
  | some t => (.ok t, cache, 0)
  | none =>
    let r := get_access_token_go 3 now oracle 0
    match r.1 with
    | .ok tok => (.ok tok, r.2.1, r.2.2)
    | .error e => (.error e, cache, r.2.2)

/-- One response of the chat-completions endpoint: HTTP status plus the
`choices[0].message.content` payload the source extracts on success. -/
structure ChatResponse where
  status : Nat
  content : String
deriving DecidableEq

/-- Trace of the outward calls made by `send_prompt`: the bearer token of
each POST in order, and how many times the token was force-refreshed. -/
structure NetTrace where
  requests : List String := []
  refreshes : Nat := 0
deriving DecidableEq

/-- The retry loop of `ai_service.send_prompt` (`max_retries = 3`); `fuel`
is the number of attempts left.  Within one attempt: POST; on 401 (with
`retry_on_auth_error`) force-refresh the token and POST once more; then
`raise_for_status`: 429 retries (even on the last attempt Python just
`continue`s and falls off the loop, observationally a failure), ≥500 retries
when attempts remain, any other ≥400 raises `RuntimeError`.  A transport
error retries when attempts remain.  A refresh failure propagates
immediately (it is a `RuntimeError`, not caught by the loop's handlers). -/
def send_prompt_go (refreshOracle : Nat → Except Unit String) (retry_on_auth : Bool) :
    Nat → String → List (Option ChatResponse) → NetTrace →
    Except Unit String × NetTrace
  | 0, _, _, tr => (.error (), tr)
  | fuel + 1, token, net, tr =>
    let pr := popOracle net
    let tr1 : NetTrace := { tr with requests := tr.requests ++ [token] }
    match pr.1 with
    | none =>
      if 1 ≤ fuel then send_prompt_go refreshOracle retry_on_auth fuel token pr.2 tr1
      else (.error (), tr1)
    | some resp =>
      if resp.status = 401 ∧ retry_on_auth then
        match refreshOracle tr1.refreshes with
        | .error _ => (.error (), { tr1 with refreshes := tr1.refreshes + 1 })
        | .ok token' =>
          let tr2 : NetTrace := { requests := tr1.requests ++ [token'],
                                  refreshes := tr1.refreshes + 1 }
          let pr2 := popOracle pr.2
          match pr2.1 with
          | none =>
            if 1 ≤ fuel then send_prompt_go refreshOracle retry_on_auth fuel token' pr2.2 tr2
            else (.error (), tr2)
          | some resp2 =>
            if 400 ≤ resp2.status then
              if resp2.status = 429 then
                send_prompt_go refreshOracle retry_on_auth fuel token' pr2.2 tr2
              else if 500 ≤ resp2.status ∧ 1 ≤ fuel then
                send_prompt_go refreshOracle retry_on_auth fuel token' pr2.2 tr2
              else (.error (), tr2)
            else (.ok resp2.content, tr2)
      else
        if 400 ≤ resp.status then
          if resp.status = 429 then
            send_prompt_go refreshOracle retry_on_auth fuel token pr.2 tr1
          else if 500 ≤ resp.status ∧ 1 ≤ fuel then
            send_prompt_go refreshOracle retry_on_auth fuel token pr.2 tr1
          else (.error (), tr1)
        else (.ok resp.content, tr1)

/-- Embedding of `ai_service.send_prompt`: the loop started with 3 attempts and an empty
trace.  `refreshOracle k` is the outcome of the `k`-th
`get_access_token(force_refresh=True)` call. -/
def send_prompt (net : List (Option ChatResponse)) (access_token : String)
    (refreshOracle : Nat → Except Unit String) (retry_on_auth : Bool := true) :
    Except Unit String × NetTrace :=
  send_prompt_go refreshOracle retry_on_auth 3 access_token net {}

/-- The base score computed inside `ai_service.evaluate_message_importance`,
covering every fallback path of its `try`/`except`: initial token failure,
`send_prompt` failure, unparseable response, non-dict result (`result.get`
raises, caught by the outer handler), missing `score` key, and a `score`
value `float()` cannot coerce.  A coerced score is clamped to `[0,1]`
exactly as the source does before criteria are applied. -/
def evaluate_base_score (tokenRes : Except Unit String)
    (net : List (Option ChatResponse)) (refreshOracle : Nat → Except Unit String) : ℚ :=
  match tokenRes with
  | .error _ => 1/2
  | .ok tok =>
    match (send_prompt net tok refreshOracle).1 with
    | .error _ => 1/2
    | .ok content =>
      match safe_json_parse content with
      | none => 1/2
      | some (.obj fields) =>
        match objGet fields "score" with
        | none => 1/2
        | some sv =>
          match pyFloat sv with
          | none => 1/2
          | some q => clampScore q
      | some _ => 1/2

/-- Embedding of `ai_service.evaluate_message_importance`: the base score (AI answer or
the 0.5 fallback) always flows through `apply_importance_criteria` — the
`except` branch of the source also ends in that call, so the function never
raises and is total here. -/
def evaluate_message_importance (tokenRes : Except Unit String)
    (net : List (Option ChatResponse)) (refreshOracle : Nat → Except Unit String)
    (message : Message) (user_preferences : UserPreferences)
    (criteria : ImportanceCriteria) (now : Int) : ℚ :=
  apply_importance_criteria (evaluate_base_score tokenRes net refreshOracle)
    message criteria user_preferences now

/-- Outward side effects of the admin-service operations. -/
inductive Effect where
  | publishAttempt
  | notifyUser (uid : Int)
  | notifyAdmin (aid : Int)
deriving DecidableEq

/-- Embedding of `Storage.get_pending_post` (dict lookup; keys are unique). -/
def get_pending_post (st : Storage) (post_id : String) : Option PendingPost :=
  st.pending_posts.lookup post_id

/-- Replace the value stored under a key of an association list. -/
def setEntry {β : Type} (l : List (String × β)) (k : String) (v : β) :
    List (String × β) :=
  l.map (fun p => if p.1 == k then (k, v) else p)

/-- Embedding of `Storage.update_post_status`: overwrites the status (and review fields)
of the stored post unconditionally whenever the id is present. -/
def update_post_status (st : Storage) (post_id : String) (status : PostStatus)
    (admin_id : Option Int) (comment : Option String) (now : Int) :
    Bool × Storage :=
  match st.pending_posts.lookup post_id with
  | none => (false, st)
  | some post =>
    let post' := { post with status := status, reviewed_at := some now,
                             reviewed_by := admin_id, admin_comment := comment }
    (true, { st with pending_posts := setEntry st.pending_posts post_id post' })

/-- Embedding of `Storage.add_pending_post`. -/
def add_pending_post (st : Storage) (post : PendingPost) : Storage :=
  { st with pending_posts := st.pending_posts ++ [(post.post_id, post)] }

/-- Embedding of `Storage.get_user`: returns the stored preferences, creating a default
record for an unknown user. -/
def get_user (st : Storage) (uid : Int) : UserPreferences × Storage :=
  match st.users.lookup uid with
  | some u => (u, st)
  | none =>
    let u : UserPreferences := { user_id := uid }
    (u, { st with users := st.users ++ [(uid, u)] })

/-- Embedding of `AdminService.publish_to_channel`: fails closed when no channel is
configured; otherwise one best-effort send whose outcome is the oracle
`sendOk` (a `TelegramError` is caught and reported as `false`). -/
def publish_to_channel (cfg : BotConfig) (sendOk : Bool) : Bool × List Effect :=
  match cfg.publish_channel_id with
  | none => (false, [])
  | some _ => (sendOk, [.publishAttempt])

/-- Embedding of `AdminService.approve_post`: `false` when the post is missing or not
PENDING; otherwise publishes, and only on a successful publish records the
APPROVED status and (best-effort) notifies the submitter. -/
def approve_post (sendOk : Bool) (post_id : String) (admin_id : Int)
    (comment : Option String) (now : Int) (st : Storage) :
    Bool × Storage × List Effect :=
  match get_pending_post st post_id with
  | none => (false, st, [])
  | some post =>
    if post.status ≠ PostStatus.pending then (false, st, [])
    else
      let pr := publish_to_channel st.bot_config sendOk
      if pr.1 then
        let st' := (update_post_status st post_id .approved (some admin_id) comment now).2
        (true, st', pr.2 ++ [.notifyUser post.user_id])
      else (false, st, pr.2)

/-- Embedding of `AdminService.reject_post`: `false` when the post is missing or not
PENDING; otherwise records REJECTED and (best-effort) notifies the
submitter. -/
def reject_post (post_id : String) (admin_id : Int) (comment : Option String)
    (now : Int) (st : Storage) : Bool × Storage × List Effect :=
  match get_pending_post st post_id with
  | none => (false, st, [])
  | some post =>
    if post.status ≠ PostStatus.pending then (false, st, [])
    else
      let st' := (update_post_status st post_id .rejected (some admin_id) comment now).2
      (true, st', [.notifyUser post.user_id])

/-- The surrogate `Message` that `evaluate_and_maybe_auto_publish` builds
from a pending post. -/
def fake_message_of_post (post : PendingPost) : Message :=
  { message_id := 0, chat_id := 0, chat_title := "Пост от пользователя",
    text := post.message_text, date := post.submitted_at, is_channel := false }

/-- The in-memory `post.importance_score = ...` mutation: the `post` object
aliases the stored entry, so the stored record is updated when present. -/
def set_post_importance (st : Storage) (post_id : String) (q : ℚ) : Storage :=
  match st.pending_posts.lookup post_id with
  | none => st
  | some post =>
    { st with pending_posts :=
        setEntry st.pending_posts post_id { post with importance_score := some q } }

/-- Embedding of `AdminService.evaluate_and_maybe_auto_publish`: no-op unless
`auto_publish_enabled` and not `require_admin_approval`; then scores the
post via `evaluate_message_importance` (no check of the post's current
status anywhere) and, when the score reaches the threshold and the publish
succeeds, stores PUBLISHED via `update_post_status`. -/
def evaluate_and_maybe_auto_publish (tokenRes : Except Unit String)
    (net : List (Option ChatResponse)) (refreshOracle : Nat → Except Unit String)
    (sendOk : Bool) (now : Int) (post : PendingPost) (st : Storage) :
    Bool × Storage × List Effect :=
  let cfg := st.bot_config
  if ¬cfg.auto_publish_enabled ∨ cfg.require_admin_approval then (false, st, [])
  else
    let fake := fake_message_of_post post
    let gu := get_user st post.user_id
    let score := evaluate_message_importance tokenRes net refreshOracle fake gu.1
      cfg.importance_criteria now
    let st2 := set_post_importance gu.2 post.post_id score
    if cfg.importance_threshold ≤ score then
      let pr := publish_to_channel cfg sendOk
      if pr.1 then
        (true, (update_post_status st2 post.post_id .published none none now).2, pr.2)
      else (false, st2, pr.2)
    else (false, st2, [])

/-- Embedding of `AdminService.process_important_message`: no-op when auto-publish is
disabled or the score is below the threshold; with approval required it
queues a PENDING post and notifies the admins (returns `false`: not
published); otherwise it publishes directly.  `newId` stands for the fresh
`uuid4` id. -/
def process_important_message (sendOk : Bool) (newId : String)
    (message : Message) (importance_score : ℚ) (now : Int) (st : Storage) :
    Bool × Storage × List Effect :=
  let cfg := st.bot_config
  if cfg.auto_publish_enabled = false then (false, st, [])
  else if importance_score < cfg.importance_threshold then (false, st, [])
  else if cfg.require_admin_approval then
    let post : PendingPost :=
      { post_id := newId, user_id := 0, message_text := message.text,
        source_info := some ("Автоматический мониторинг: " ++ message.chat_title),
        importance_score := some importance_score, status := .pending,
        submitted_at := now }
    (false, add_pending_post st post, cfg.admin_ids.map Effect.notifyAdmin)
  else
    let pr := publish_to_channel cfg sendOk
    (pr.1, st, pr.2)

/-- A neutral ASCII message of length 10 (no criteria keyword fires). -/
def msgA : Message :=
  { message_id := 1, chat_id := 5, chat_title := "chat", text := "abcdefghij", date := 0 }

/-- A 5-character message containing the boost keyword `abc`. -/
def msgBoost : Message :=
  { message_id := 1, chat_id := 5, chat_title := "chat", text := "abcde", date := 0 }

/-- The source-default criteria (`time_sensitivity = True`). -/
def critDefault : ImportanceCriteria := {}

/-- Default criteria with the recency step switched off. -/
def critNeutral : ImportanceCriteria := { time_sensitivity := false }

/-- Criteria with one boost keyword and the recency step off. -/
def critBoost : ImportanceCriteria :=
  { keywords_boost := ["abc"], time_sensitivity := false }

/-- Preferences with no personal keywords. -/
def prefsA : UserPreferences := { user_id := 1 }

/-- A pending post. -/
def postPending : PendingPost :=
  { post_id := "p1", user_id := 42, message_text := "abcdefghij", status := .pending }

/-- A post already rejected (terminal state). -/
def postRejected : PendingPost :=
  { post_id := "p2", user_id := 42, message_text := "abcdefghij", status := .rejected }

/-- A config with a publication channel set (other fields source defaults). -/
def cfgChan : BotConfig := { publish_channel_id := some 100 }

/-- A config with auto-publish disabled. -/
def cfgOff : BotConfig := { publish_channel_id := some 100, auto_publish_enabled := false }

/-- A config allowing unmoderated auto-publication with threshold 0.5. -/
def cfgAuto : BotConfig :=
  { publish_channel_id := some 100, importance_threshold := 1/2,
    importance_criteria := critNeutral, auto_publish_enabled := true,
    require_admin_approval := false }

/-- Storage holding one pending post behind a configured channel. -/
def stC3 : Storage := { bot_config := cfgChan, pending_posts := [("p1", postPending)] }

/-- Storage holding one rejected post. -/
def stC4 : Storage := { bot_config := cfgChan, pending_posts := [("p2", postRejected)] }

/-- Storage with auto-publish disabled. -/
def stC9 : Storage := { bot_config := cfgOff }

/-- Storage with unmoderated auto-publish enabled and one rejected post. -/
def stAuto : Storage := { bot_config := cfgAuto, pending_posts := [("p2", postRejected)] }

/-- An auth response declaring a 600-second token lifetime. -/
def authResp600 : AuthResponse := { access_token := some "tk", expires_in := 600 }

/-- A cache holding a valid token that expires at time 10. -/
def cacheValid : TokenCache := { token := some "tcached", expires_at := some 10 }

/-- A string containing a well-formed JSON object amid prose that has one
more closing brace: `x \x7b"ok": true\x7d y \x7d z`. -/
def proseWithBraces : String := "x \x7b\"ok\": true\x7d y \x7d z"

/-- The clamp never goes below 0. -/
theorem clampScore_nonneg (q : ℚ) : 0 ≤ clampScore q := le_max_left 0 _

/-- The clamp never exceeds 1. -/
theorem clampScore_le_one (q : ℚ) : clampScore q ≤ 1 :=
  max_le (by norm_num) (min_le_left _ _)

/-- Claim C1: every score produced by the evaluator
(`evaluate_message_importance`) and by the criteria adjuster
(`apply_importance_criteria`) lies in `[0, 1]`, for every message, user
preferences, criteria configuration, base score and oracle behaviour. -/
theorem C1_all_scores_in_unit_interval :
    ∀ (b : ℚ) (m : Message) (c : ImportanceCriteria) (p : UserPreferences)
      (now : Int) (tokenRes : Except Unit String) (net : List (Option ChatResponse))
      (refresh : Nat → Except Unit String),
      (0 ≤ apply_importance_criteria b m c p now ∧
        apply_importance_criteria b m c p now ≤ 1) ∧
      (0 ≤ evaluate_message_importance tokenRes net refresh m p c now ∧
        evaluate_message_importance tokenRes net refresh m p c now ≤ 1) := by
  intro b m c p now tokenRes net refresh
  exact ⟨⟨clampScore_nonneg _, clampScore_le_one _⟩,
    ⟨clampScore_nonneg _, clampScore_le_one _⟩⟩

/-- Claim C2, counterexample: `apply_importance_criteria` is *not* a
function of `(base_score, message, criteria, recipient preferences)` alone —
the same four inputs give different outputs at two different wall-clock
times (`datetime.now()` feeds the recency step): a fresh message gets `0.7`,
the same message two hours later gets `0.6`. -/
theorem C2_counterexample_time_dependence :
    apply_importance_criteria (3/5) msgA critDefault prefsA 0 ≠
      apply_importance_criteria (3/5) msgA critDefault prefsA 7200 := by
  have hlen : "abcdefghij".length = 10 := rfl
  have h1 : apply_importance_criteria (3/5) msgA critDefault prefsA 0 = 7/10 := by
    unfold apply_importance_criteria
    norm_num [msgA, critDefault, prefsA, clampScore, hlen]
  have h2 : apply_importance_criteria (3/5) msgA critDefault prefsA 7200 = 3/5 := by
    unfold apply_importance_criteria
    norm_num [msgA, critDefault, prefsA, clampScore, hlen]
  rw [h1, h2]; norm_num

/-- Claim C2, amended: `apply_importance_criteria` is a deterministic
function of `(base_score, message, criteria, recipient preferences)`
*together with the evaluation time* read by the recency step, and applies
the eight steps of spec §4.3 in the source's fixed order; for base score
`0.6` and a message shorter than `min_message_length` whose text matches a
boost keyword (and no other rule), the result is `0.6 * 0.5 = 0.3`, then
`0.3 + 0.2 = 0.5` — provided the recency step does not fire
(`time_sensitivity` off, or the message between 1 and 24 hours old). -/
theorem C2_amended_short_boosted_message_scores_half (m : Message)
    (c : ImportanceCriteria) (p : UserPreferences) (now : Int)
    (hlen : (m.text.length : Int) < c.min_message_length)
    (hboost : c.keywords_boost.any
      (fun k => strContains (strLower m.text) (strLower k)) = true)
    (hred : c.keywords_reduce.any
      (fun k => strContains (strLower m.text) (strLower k)) = false)
    (huk : p.keywords.any
      (fun k => strContains (strLower m.text) (strLower k)) = false)
    (hex : p.exclude_keywords.any
      (fun k => strContains (strLower m.text) (strLower k)) = false)
    (hsb : c.sources_boost.contains m.chat_id = false)
    (hsr : c.sources_reduce.contains m.chat_id = false)
    (hts : c.time_sensitivity = false ∨
      (¬(((now - m.date : Int) : ℚ) / 3600 < 1) ∧
        ¬(((now - m.date : Int) : ℚ) / 3600 > 24))) :
    apply_importance_criteria (3/5) m c p now = 1/2 := by
  unfold apply_importance_criteria
  simp only [hboost, hred, huk, hex, hsb, hsr, Bool.false_eq_true,
    Bool.true_eq_false, if_true, if_false, reduceIte]
  rw [if_pos hlen]
  have harith : min 1 ((3:ℚ)/5 * (1/2) + 1/5) = 1/2 := by
    rw [min_eq_right (by norm_num)]; norm_num
  have hclamp : clampScore (1/2) = 1/2 := by
    unfold clampScore
    rw [min_eq_right (by norm_num), max_eq_right (by norm_num)]
  rcases hts with h | ⟨h1, h2⟩
  · rw [h]
    simp only [Bool.false_eq_true, if_false]
    rw [harith, hclamp]
  · cases hc : c.time_sensitivity
    · simp only [Bool.false_eq_true, if_false]
      rw [harith, hclamp]
    · simp only [if_true]
      rw [if_neg h1, if_neg h2, harith, hclamp]

/-- Claim C2, witness: the amended statement at the spec's concrete inputs
(base 0.6, 5-character text, `min_message_length = 10`, boost keyword
present, recency off) yields 0.5. -/
theorem C2_amended_witness :
    apply_importance_criteria (3/5) msgBoost critBoost prefsA 0 = 1/2 :=
  C2_amended_short_boosted_message_scores_half msgBoost critBoost prefsA 0
    (by decide) (by decide) (by decide) (by decide) (by decide) (by decide)
    (by decide) (Or.inl rfl)

/-- Claim C3: `approve_post` changes the stored state (recording
APPROVED) only when the publication gateway call returned `true`; whenever
`publish_to_channel` reports `false` (failed send or unconfigured channel),
`approve_post` returns `false` and the storage — in particular a PENDING
post's status — is unchanged, so approval can be retried. -/
theorem C3_approve_only_after_gateway_success (sendOk : Bool) (post_id : String)
    (admin_id : Int) (comment : Option String) (now : Int) (st : Storage) :
    ((publish_to_channel st.bot_config sendOk).1 = false →
      (approve_post sendOk post_id admin_id comment now st).1 = false ∧
      (approve_post sendOk post_id admin_id comment now st).2.1 = st) ∧
    ((approve_post sendOk post_id admin_id comment now st).2.1 ≠ st →
      (publish_to_channel st.bot_config sendOk).1 = true) := by
  constructor
  · intro hfail
    unfold approve_post
    cases hp : get_pending_post st post_id with
    | none => simp
    | some post =>
      by_cases hs : post.status = PostStatus.pending
      · simp [hs, hfail]
      · simp [hs]
  · intro hchange
    cases hpub : (publish_to_channel st.bot_config sendOk).1 with
    | true => rfl
    | false =>
      exfalso
      apply hchange
      unfold approve_post
      cases hp : get_pending_post st post_id with
      | none => rfl
      | some post =>
        by_cases hs : post.status = PostStatus.pending
        · simp [hs, hpub]
        · simp [hs]

/-- Claim C3, witness: a failing gateway on a PENDING post leaves the state
unchanged and returns `false`. -/
theorem C3_witness :
    (approve_post false "p1" 7 none 5 stC3).1 = false ∧
    (approve_post false "p1" 7 none 5 stC3).2.1 = stC3 :=
  (C3_approve_only_after_gateway_success false "p1" 7 none 5 stC3).1 (by decide)

/-- Claim C4: for every post whose status is not PENDING (REJECTED,
PUBLISHED, APPROVED) and for every missing post id, both `approve_post`
and `reject_post` return `false`, leave the stored state unchanged and
perform no outward effect. -/
theorem C4_non_pending_posts_are_frozen (sendOk : Bool) (pid : String)
    (a : Int) (c : Option String) (now : Int) (st : Storage) :
    (get_pending_post st pid = none →
      approve_post sendOk pid a c now st = (false, st, []) ∧
      reject_post pid a c now st = (false, st, [])) ∧
    (∀ p, get_pending_post st pid = some p → p.status ≠ PostStatus.pending →
      approve_post sendOk pid a c now st = (false, st, []) ∧
      reject_post pid a c now st = (false, st, [])) := by
  constructor
  · intro hnone
    unfold approve_post reject_post
    rw [hnone]
    exact ⟨rfl, rfl⟩
  · intro p hp hs
    unfold approve_post reject_post
    rw [hp]
    simp [hs]

/-- Claim C4, witness: an already-REJECTED post can be neither approved nor
rejected again. -/
theorem C4_witness :
    approve_post true "p2" 7 none 5 stC4 = (false, stC4, []) ∧
    reject_post "p2" 7 none 5 stC4 = (false, stC4, []) :=
  (C4_non_pending_posts_are_frozen true "p2" 7 none 5 stC4).2 postRejected
    (by rfl) (by decide)

/-- Claim C9: with `auto_publish_enabled = false`,
`process_important_message` returns "not published" (`false`), performs no
channel side effect (`publish_to_channel` is never invoked — the effect
trace is empty) and creates no pending post (the storage is unchanged),
for every message and score. -/
theorem C9_no_auto_publish_means_noop (sendOk : Bool) (newId : String)
    (m : Message) (score : ℚ) (now : Int) (st : Storage)
    (h : st.bot_config.auto_publish_enabled = false) :
    process_important_message sendOk newId m score now st = (false, st, []) := by
  unfold process_important_message
  simp [h]

/-- Claim C9, witness: a high-scoring message is dropped without effects
when auto-publish is off. -/
theorem C9_witness :
    process_important_message true "x1" msgA (9/10) 0 stC9 = (false, stC9, []) :=
  C9_no_auto_publish_means_noop true "x1" msgA (9/10) 0 stC9 (by rfl)

/-- Claim C5: on an HTTP 401 from the scoring endpoint, `send_prompt`
refreshes the token exactly once (the `get_access_token(force_refresh=True)`
oracle is consulted exactly once) and retries exactly once with the new
token (the request log is `[tok, newTok]`); if the retry answers 401 again,
`send_prompt` raises (`RuntimeError`), the evaluator catches it, and
`evaluate_message_importance` returns the 0.5 fallback with criteria
applied — no exception reaches the caller (the model is total). -/
theorem C5_one_refresh_one_retry_then_fallback (c1 c2 : String)
    (rest : List (Option ChatResponse)) (refreshOracle : Nat → Except Unit String)
    (tok newTok : String) (m : Message) (p : UserPreferences)
    (crit : ImportanceCriteria) (now : Int)
    (href : refreshOracle 0 = .ok newTok) :
    (send_prompt (some ⟨401, c1⟩ :: some ⟨401, c2⟩ :: rest) tok refreshOracle).2.refreshes = 1 ∧
    (send_prompt (some ⟨401, c1⟩ :: some ⟨401, c2⟩ :: rest) tok refreshOracle).2.requests =
      [tok, newTok] ∧
    (send_prompt (some ⟨401, c1⟩ :: some ⟨401, c2⟩ :: rest) tok refreshOracle).1 = .error () ∧
    evaluate_message_importance (.ok tok) (some ⟨401, c1⟩ :: some ⟨401, c2⟩ :: rest)
        refreshOracle m p crit now =
      apply_importance_criteria (1/2) m crit p now := by
  have hsend : send_prompt (some ⟨401, c1⟩ :: some ⟨401, c2⟩ :: rest) tok refreshOracle =
      (.error (), ⟨[tok, newTok], 1⟩) := by
    unfold send_prompt send_prompt_go
    simp [popOracle, href]
  refine ⟨by rw [hsend], by rw [hsend], by rw [hsend], ?_⟩
  have hb : evaluate_base_score (.ok tok)
      (some ⟨401, c1⟩ :: some ⟨401, c2⟩ :: rest) refreshOracle = 1/2 := by
    simp [evaluate_base_score, hsend]
  unfold evaluate_message_importance
  rw [hb]

/-- Claim C5, witness: the 401-then-401 scenario at concrete inputs. -/
theorem C5_witness :
    (send_prompt [some ⟨401, "a"⟩, some ⟨401, "b"⟩] "t0" (fun _ => .ok "t1")).2.refreshes = 1 ∧
    (send_prompt [some ⟨401, "a"⟩, some ⟨401, "b"⟩] "t0" (fun _ => .ok "t1")).2.requests =
      ["t0", "t1"] ∧
    (send_prompt [some ⟨401, "a"⟩, some ⟨401, "b"⟩] "t0" (fun _ => .ok "t1")).1 = .error () ∧
    evaluate_message_importance (.ok "t0") [some ⟨401, "a"⟩, some ⟨401, "b"⟩]
        (fun _ => .ok "t1") msgA prefsA critNeutral 0 =
      apply_importance_criteria (1/2) msgA critNeutral prefsA 0 :=
  C5_one_refresh_one_retry_then_fallback "a" "b" [] (fun _ => .ok "t1") "t0" "t1"
    msgA prefsA critNeutral 0 rfl

/-- Claim C6, counterexample: a response whose `score` is the non-numeric
JSON value `true` is *not* resolved to the 0.5 fallback — Python's
`float(True)` is `1.0`, so the evaluator returns `1.0` (after criteria)
instead of the fallback `0.5`-based result the claim requires. -/
theorem C6_counterexample_boolean_score :
    evaluate_message_importance (.ok "t") [some ⟨200, "\x7b\"score\": true\x7d"⟩]
        (fun _ => .error ()) msgA prefsA critNeutral 0 = 1 ∧
    apply_importance_criteria (1/2) msgA critNeutral prefsA 0 = 1/2 ∧
    evaluate_message_importance (.ok "t") [some ⟨200, "\x7b\"score\": true\x7d"⟩]
        (fun _ => .error ()) msgA prefsA critNeutral 0 ≠
      apply_importance_criteria (1/2) msgA critNeutral prefsA 0 := by
  have hlen : "abcdefghij".length = 10 := rfl
  have hsend : (send_prompt [some ⟨200, "\x7b\"score\": true\x7d"⟩] "t"
      (fun _ => .error ())).1 = .ok "\x7b\"score\": true\x7d" := by
    unfold send_prompt send_prompt_go
    simp [popOracle]
  have hparse : safe_json_parse "\x7b\"score\": true\x7d" =
      some (.obj [("score", JsonValue.bool true)]) := by rfl
  have hbase : evaluate_base_score (.ok "t") [some ⟨200, "\x7b\"score\": true\x7d"⟩]
      (fun _ => .error ()) = 1 := by
    simp [evaluate_base_score, hsend, hparse]
    have hget : objGet [("score", JsonValue.bool true)] "score" =
        some (JsonValue.bool true) := rfl
    rw [hget]
    show clampScore 1 = 1
    unfold clampScore
    rw [min_self, max_eq_right (by norm_num)]
  have h1 : evaluate_message_importance (.ok "t") [some ⟨200, "\x7b\"score\": true\x7d"⟩]
      (fun _ => .error ()) msgA prefsA critNeutral 0 = 1 := by
    unfold evaluate_message_importance
    rw [hbase]
    unfold apply_importance_criteria
    norm_num [msgA, critNeutral, prefsA, clampScore, hlen]
  have h2 : apply_importance_criteria (1/2) msgA critNeutral prefsA 0 = 1/2 := by
    unfold apply_importance_criteria
    norm_num [msgA, critNeutral, prefsA, clampScore, hlen]
  refine ⟨h1, h2, ?_⟩
  rw [h1, h2]; norm_num

/-- Claim C6, amended: `evaluate_message_importance` never raises (the
model is a total function) and resolves to the 0.5 base (then applies
criteria) on: unparseable response bodies, responses lacking a `score`
field, responses whose `score` Python's `float()` cannot coerce (`null`,
arrays, objects, non-numeric strings), and exhaustion of the bounded
retries; a coercible score is clamped to `[0,1]` before criteria are
applied.  (A boolean or numeric-string `score` **is** coerced by `float()`
rather than treated as a parse failure — see the counterexample.) -/
theorem C6_amended_fallback_and_clamp (tok : String)
    (refreshOracle : Nat → Except Unit String) (m : Message)
    (p : UserPreferences) (c : ImportanceCriteria) (now : Int) (resp : String) :
    (safe_json_parse resp = none →
      evaluate_message_importance (.ok tok) [some ⟨200, resp⟩] refreshOracle m p c now =
        apply_importance_criteria (1/2) m c p now) ∧
    (∀ fields, safe_json_parse resp = some (.obj fields) →
      objGet fields "score" = none →
      evaluate_message_importance (.ok tok) [some ⟨200, resp⟩] refreshOracle m p c now =
        apply_importance_criteria (1/2) m c p now) ∧
    (∀ fields sv, safe_json_parse resp = some (.obj fields) →
      objGet fields "score" = some sv → pyFloat sv = none →
      evaluate_message_importance (.ok tok) [some ⟨200, resp⟩] refreshOracle m p c now =
        apply_importance_criteria (1/2) m c p now) ∧
    (∀ fields sv q, safe_json_parse resp = some (.obj fields) →
      objGet fields "score" = some sv → pyFloat sv = some q →
      evaluate_message_importance (.ok tok) [some ⟨200, resp⟩] refreshOracle m p c now =
        apply_importance_criteria (clampScore q) m c p now) ∧
    (evaluate_message_importance (.ok tok) [none, none, none] refreshOracle m p c now =
      apply_importance_criteria (1/2) m c p now) := by
  have hsend : (send_prompt [some ⟨200, resp⟩] tok refreshOracle).1 = .ok resp := by
    unfold send_prompt send_prompt_go
    simp [popOracle]
  have hnet : (send_prompt [none, none, none] tok refreshOracle).1 = .error () := by
    simp [send_prompt, send_prompt_go, popOracle]
  refine ⟨?_, ?_, ?_, ?_, ?_⟩
  · intro hp
    unfold evaluate_message_importance
    simp [evaluate_base_score, hsend, hp]
  · intro fields hp hg
    unfold evaluate_message_importance
    simp [evaluate_base_score, hsend, hp, hg]
  · intro fields sv hp hg hf
    unfold evaluate_message_importance
    simp [evaluate_base_score, hsend, hp, hg, hf]
  · intro fields sv q hp hg hf
    unfold evaluate_message_importance
    simp [evaluate_base_score, hsend, hp, hg, hf]
  · unfold evaluate_message_importance
    simp [evaluate_base_score, hnet]

/-- Claim C6, witness: the spec's own test string (`"not json at all"`)
resolves to the fallback with criteria applied, and a numeric score `2` is
clamped before criteria. -/
theorem C6_witness :
    evaluate_message_importance (.ok "t") [some ⟨200, "not json at all"⟩]
        (fun _ => .error ()) msgA prefsA critNeutral 0 =
      apply_importance_criteria (1/2) msgA critNeutral prefsA 0 ∧
    evaluate_message_importance (.ok "t") [none, none, none]
        (fun _ => .error ()) msgA prefsA critNeutral 0 =
      apply_importance_criteria (1/2) msgA critNeutral prefsA 0 :=
  ⟨(C6_amended_fallback_and_clamp "t" (fun _ => .error ()) msgA prefsA critNeutral 0
      "not json at all").1 (by rfl),
    (C6_amended_fallback_and_clamp "t" (fun _ => .error ()) msgA prefsA critNeutral 0
      "not json at all").2.2.2.2⟩

/-- Claim C8, counterexample: the stored expiry is *not* derived from the
auth response and is *not* conservatively shorter than the server-declared
lifetime: with a declared lifetime of 600 seconds, the source stores
`now + 1800` seconds (the fixed 30-minute TTL), which exceeds the declared
lifetime. -/
theorem C8_counterexample_ttl_exceeds_declared_lifetime :
    (get_access_token false 0 [some authResp600] {}).2.1.expires_at = some 1800 ∧
    ¬((1800 : Int) - 0 < authResp600.expires_in) := by
  exact ⟨rfl, by decide⟩

/-- Claim C8, amended: `get_access_token` returns the cached token when one
is present (non-empty), unexpired and `force_refresh` is false, performing
no exchange; otherwise it performs the credential exchange and stores the
new token with expiry `now + 1800` seconds — a fixed 30-minute TTL written
independently of the lifetime declared in the auth response. -/
theorem C8_amended_cache_hit_and_fixed_ttl (now : Int)
    (oracle : List (Option AuthResponse)) (cache : TokenCache) :
    (∀ t e, cache.token = some t → cache.expires_at = some e → t ≠ "" → now < e →
      get_access_token false now oracle cache = (.ok t, cache, 0)) ∧
    (∀ resp tok rest, oracle = some resp :: rest → resp.access_token = some tok →
      tok ≠ "" →
      get_access_token true now oracle cache =
        (.ok tok, { token := some tok, expires_at := some (now + 1800) }, 1)) := by
  constructor
  · intro t e ht he hne hlt
    unfold get_access_token
    simp only [ht, he, Bool.false_eq_true, if_false]
    rw [if_pos ⟨hne, hlt⟩]
  · intro resp tok rest ho htok hne
    subst ho
    unfold get_access_token get_access_token_go
    simp [popOracle, htok, hne]

/-- Claim C8, witness: a cache hit returns the cached token with no
exchange, and a forced refresh against a response declaring a 600-second
lifetime stores expiry `now + 1800`. -/
theorem C8_witness :
    get_access_token false 5 [] cacheValid = (.ok "tcached", cacheValid, 0) ∧
    get_access_token true 0 [some authResp600] {} =
      (.ok "tk", { token := some "tk", expires_at := some (0 + 1800) }, 1) :=
  ⟨(C8_amended_cache_hit_and_fixed_ttl 5 [] cacheValid).1 "tcached" 10 rfl rfl
      (by decide) (by decide),
    (C8_amended_cache_hit_and_fixed_ttl 0 [some authResp600] {}).2 authResp600 "tk" []
      rfl rfl (by decide)⟩

/-- Replacing the entry stored under a present key makes lookup return the
new value. -/
theorem lookup_setEntry {β : Type} (l : List (String × β)) (k : String) (v w : β)
    (h : l.lookup k = some w) : (setEntry l k v).lookup k = some v := by
  induction l with
  | nil => simp [List.lookup] at h
  | cons hd tl ih =>
    obtain ⟨k₁, v₁⟩ := hd
    by_cases hk : k₁ = k
    · subst hk
      have hse : setEntry ((k₁, v₁) :: tl) k₁ v = (k₁, v) :: setEntry tl k₁ v := by
        simp [setEntry]
      rw [hse]
      simp [List.lookup]
    · have hbeq : (k₁ == k) = false := by simp [hk]
      have hbeq' : (k == k₁) = false := by simp [Ne.symm hk]
      simp only [setEntry, List.map, hbeq, Bool.false_eq_true, if_false] at *
      simp only [List.lookup, hbeq'] at h ⊢
      exact ih h

/-- Lemma: `get_user` never touches the config or the post queue. -/
theorem get_user_preserves (st : Storage) (uid : Int) :
    (get_user st uid).2.bot_config = st.bot_config ∧
    (get_user st uid).2.pending_posts = st.pending_posts := by
  unfold get_user
  cases h : st.users.lookup uid <;> simp

/-- Claim C10: `evaluate_and_maybe_auto_publish` imposes no precondition on
the post's current status — with `auto_publish_enabled` and without
`require_admin_approval`, any stored post (REJECTED and PUBLISHED included)
whose computed score reaches the threshold is set to PUBLISHED after a
successful gateway call; and `Storage.update_post_status` overwrites any
stored status unconditionally.  The one-directional-transition property is
enforced only by `approve_post`/`reject_post`. -/
theorem C10_auto_publish_ignores_post_status (tokenRes : Except Unit String)
    (net : List (Option ChatResponse)) (refreshOracle : Nat → Except Unit String)
    (now : Int) (post : PendingPost) (st : Storage) (p : PendingPost)
    (hlook : st.pending_posts.lookup post.post_id = some p)
    (hauto : st.bot_config.auto_publish_enabled = true)
    (happr : st.bot_config.require_admin_approval = false)
    (hchan : ∃ ch, st.bot_config.publish_channel_id = some ch)
    (hscore : st.bot_config.importance_threshold ≤
      evaluate_message_importance tokenRes net refreshOracle (fake_message_of_post post)
        (get_user st post.user_id).1 st.bot_config.importance_criteria now) :
    ((evaluate_and_maybe_auto_publish tokenRes net refreshOracle true now post st).1 =
        true ∧
      ∃ p', (evaluate_and_maybe_auto_publish tokenRes net refreshOracle true now post
          st).2.1.pending_posts.lookup post.post_id = some p' ∧
        p'.status = PostStatus.published) ∧
    (∀ (st' : Storage) (pid : String) (q : PendingPost) (status : PostStatus)
      (a : Option Int) (cm : Option String) (n : Int),
      st'.pending_posts.lookup pid = some q →
      (update_post_status st' pid status a cm n).1 = true ∧
      (update_post_status st' pid status a cm n).2.pending_posts.lookup pid =
        some { q with status := status, reviewed_at := some n, reviewed_by := a,
                      admin_comment := cm }) := by
  have hupd : ∀ (st' : Storage) (pid : String) (q : PendingPost) (status : PostStatus)
      (a : Option Int) (cm : Option String) (n : Int),
      st'.pending_posts.lookup pid = some q →
      (update_post_status st' pid status a cm n).1 = true ∧
      (update_post_status st' pid status a cm n).2.pending_posts.lookup pid =
        some { q with status := status, reviewed_at := some n, reviewed_by := a,
                      admin_comment := cm } := by
    intro st' pid q status a cm n hq
    unfold update_post_status
    rw [hq]
    exact ⟨rfl, lookup_setEntry _ _ _ _ hq⟩
  refine ⟨?_, hupd⟩
  obtain ⟨ch, hch⟩ := hchan
  have hcond : ¬(¬st.bot_config.auto_publish_enabled = true ∨
      st.bot_config.require_admin_approval = true) := by
    simp [hauto, happr]
  have hpub : publish_to_channel st.bot_config true = (true, [Effect.publishAttempt]) := by
    unfold publish_to_channel
    rw [hch]
  have hpp : (get_user st post.user_id).2.pending_posts = st.pending_posts :=
    (get_user_preserves st post.user_id).2
  simp only [evaluate_and_maybe_auto_publish]
  set sc := evaluate_message_importance tokenRes net refreshOracle
    (fake_message_of_post post) (get_user st post.user_id).1
    st.bot_config.importance_criteria now with hsc
  rw [if_neg hcond, if_pos hscore, hpub]
  simp only [if_true]
  have h2 : (set_post_importance (get_user st post.user_id).2 post.post_id
      sc).pending_posts.lookup post.post_id =
      some { p with importance_score := some sc } := by
    unfold set_post_importance
    rw [hpp, hlook]
    simp only
    exact lookup_setEntry _ _ _ _ hlook
  obtain ⟨hu1, hu2⟩ := hupd _ post.post_id _ .published none none now h2
  exact ⟨trivial, ⟨_, hu2, rfl⟩⟩

/-- Claim C10, witness: a REJECTED post is re-published by
`evaluate_and_maybe_auto_publish` when auto-publish is on, approval is off,
the (fallback) score 0.5 meets the 0.5 threshold and the gateway succeeds. -/
theorem C10_witness :
    (evaluate_and_maybe_auto_publish (.error ()) [] (fun _ => .error ()) true 0
        postRejected stAuto).1 = true ∧
    ∃ p', (evaluate_and_maybe_auto_publish (.error ()) [] (fun _ => .error ()) true 0
        postRejected stAuto).2.1.pending_posts.lookup postRejected.post_id = some p' ∧
      p'.status = PostStatus.published := by
  have hlen : "abcdefghij".length = 10 := rfl
  have hscore : stAuto.bot_config.importance_threshold ≤
      evaluate_message_importance (.error ()) [] (fun _ => .error ())
        (fake_message_of_post postRejected) (get_user stAuto postRejected.user_id).1
        stAuto.bot_config.importance_criteria 0 := by
    have hev : evaluate_message_importance (.error ()) [] (fun _ => .error ())
        (fake_message_of_post postRejected) (get_user stAuto postRejected.user_id).1
        stAuto.bot_config.importance_criteria 0 = 1/2 := by
      have hb : evaluate_base_score (.error ()) [] (fun _ => .error ()) = 1/2 := rfl
      unfold evaluate_message_importance
      rw [hb]
      unfold apply_importance_criteria
      norm_num [fake_message_of_post, postRejected, stAuto, cfgAuto, critNeutral,
        get_user, clampScore, hlen]
    rw [hev]
    norm_num [stAuto, cfgAuto]
  exact (C10_auto_publish_ignores_post_status (.error ()) [] (fun _ => .error ()) 0
    postRejected stAuto postRejected rfl rfl rfl ⟨100, rfl⟩ hscore).1

/-- Lemma: `findIdx?` over a block of non-matching characters followed by a block
starting with the searched character finds exactly the boundary index. -/
theorem findIdx?_append_of_head (c : Char) (rest : List Char)
    (hr : rest.head? = some c) :
    ∀ (p : List Char), (∀ x ∈ p, (x == c) = false) →
      ∀ i, List.findIdx? (· == c) (p ++ rest) i = some (i + p.length) := by
  intro p
  induction p with
  | nil =>
    intro _ i
    obtain ⟨t, ht⟩ : ∃ t, rest = c :: t := by
      cases rest with
      | nil => simp at hr
      | cons a t =>
        simp only [List.head?_cons, Option.some_inj] at hr
        exact ⟨t, by rw [hr]⟩
    subst ht
    simp [List.findIdx?_cons]
  | cons x p' ih =>
    intro hp i
    have hx : (x == c) = false := hp x (by simp)
    have hp' : ∀ y ∈ p', (y == c) = false := fun y hy => hp y (by simp [hy])
    simp only [List.cons_append, List.findIdx?_cons, hx, Bool.false_eq_true, if_false]
    rw [ih hp' (i + 1)]
    congr 1
    simp [List.length_cons]
    omega

/-- Claim C7, counterexample: `safe_json_parse` does *not* extract the first
well-formed JSON object from arbitrary surrounding prose — on
`x \x7b"ok": true\x7d y \x7d z`, which contains the well-formed object
`\x7b"ok": true\x7d` as a substring, the first-`\x7b`-to-last-`\x7d` slice
is not valid JSON and the function returns `none`. -/
theorem C7_counterexample_brace_in_prose :
    safe_json_parse proseWithBraces = none ∧
    json_loads "\x7b\"ok\": true\x7d" = some (.obj [("ok", JsonValue.bool true)]) ∧
    strContains proseWithBraces "\x7b\"ok\": true\x7d" = true :=
  ⟨rfl, rfl, rfl⟩

/-- Claim C7, amended: `safe_json_parse` extracts the JSON object spanning
from the first `\x7b` to the last `\x7d` of the text.  It tolerates
surrounding prose only in this sense: whenever the text is
`pre ++ j ++ suf` where the leading prose `pre` contains no `\x7b`, the
trailing prose `suf` contains no `\x7d`, `j` itself is well-formed JSON
delimited by braces, and the whole text is not valid JSON on its own, the
parse of `j` is returned.  (Prose containing further braces can defeat the
extraction — see the counterexample.) -/
theorem C7_amended_brace_delimited_extraction (pre j suf : String) (v : JsonValue)
    (hpre : ∀ x ∈ pre.data, (x == '{') = false)
    (hsuf : ∀ x ∈ suf.data, (x == '}') = false)
    (hhead : j.data.head? = some '{')
    (hlast : j.data.getLast? = some '}')
    (hj : json_loads j = some v)
    (hwhole : json_loads (pre ++ j ++ suf) = none) :
    safe_json_parse (pre ++ j ++ suf) = some v := by
  have hdata : (pre ++ j ++ suf).data = pre.data ++ j.data ++ suf.data := by
    rw [String.data_append, String.data_append]
  have hjne : j.data ≠ [] := by
    intro h
    rw [h] at hhead
    simp at hhead
  have hjlen : 1 ≤ j.data.length := by
    cases hd : j.data with
    | nil => exact absurd hd hjne
    | cons a t => simp [hd]
  have hfind : List.findIdx? (· == '{') (pre.data ++ j.data ++ suf.data) =
      some pre.data.length := by
    rw [List.append_assoc]
    have hh : (j.data ++ suf.data).head? = some '{' := by
      cases hd : j.data with
      | nil => exact absurd hd hjne
      | cons a t =>
        rw [hd] at hhead
        simp only [List.head?_cons, Option.some_inj] at hhead
        simp [hhead]
    have := findIdx?_append_of_head '{' (j.data ++ suf.data) hh pre.data hpre 0
    simpa using this
  have hrfind : List.findIdx? (· == '}') ((pre.data ++ j.data ++ suf.data).reverse) =
      some suf.data.length := by
    have hrw : (pre.data ++ j.data ++ suf.data).reverse =
        suf.data.reverse ++ (j.data.reverse ++ pre.data.reverse) := by
      simp [List.reverse_append]
    rw [hrw]
    have hsuf' : ∀ x ∈ suf.data.reverse, (x == '}') = false := fun x hx =>
      hsuf x (List.mem_reverse.mp hx)
    have hh : (j.data.reverse ++ pre.data.reverse).head? = some '}' := by
      have hjrev : j.data.reverse.head? = some '}' := by
        rw [List.head?_reverse]
        exact hlast
      obtain ⟨t, ht⟩ : ∃ t, j.data.reverse = '}' :: t := by
        cases hd : j.data.reverse with
        | nil => rw [hd] at hjrev; simp at hjrev
        | cons a t =>
          rw [hd] at hjrev
          simp only [List.head?_cons, Option.some_inj] at hjrev
          exact ⟨t, by rw [hjrev]⟩
      rw [ht]
      simp
    have := findIdx?_append_of_head '}' (j.data.reverse ++ pre.data.reverse) hh
      suf.data.reverse hsuf' 0
    simpa using this
  have h1 : strFindIdx '{' (pre.data ++ j.data ++ suf.data) = some pre.data.length := by
    unfold strFindIdx
    exact hfind
  have h2 : strRFindIdx '}' (pre.data ++ j.data ++ suf.data) =
      some (pre.data.length + j.data.length - 1) := by
    unfold strRFindIdx
    rw [hrfind]
    simp only [List.length_append]
    exact congrArg some (by omega)
  have hslice : ((pre.data ++ j.data ++ suf.data).drop pre.data.length).take
      (pre.data.length + j.data.length - 1 + 1 - pre.data.length) = j.data := by
    rw [List.append_assoc, List.drop_left]
    have harith : pre.data.length + j.data.length - 1 + 1 - pre.data.length =
        j.data.length := by omega
    rw [harith, List.take_left]
  unfold safe_json_parse
  rw [hwhole]
  simp only [hdata, h1, h2]
  rw [if_pos (by omega : pre.data.length < pre.data.length + j.data.length - 1 + 1)]
  rw [hslice]
  exact hj

/-- Claim C7, witness: brace-free prose around a JSON object is tolerated. -/
theorem C7_witness :
    safe_json_parse ("Answer: " ++ "\x7b\"ok\": true\x7d" ++ " done.") =
      some (.obj [("ok", JsonValue.bool true)]) :=
  C7_amended_brace_delimited_extraction "Answer: " "\x7b\"ok\": true\x7d" " done."
    (.obj [("ok", JsonValue.bool true)]) (by decide) (by decide) rfl rfl rfl rfl
